import Mathlib

/-!
Shallow embedding of `custom_components/xiaomi_miio_airpurifier/airpurifier_miot.py`.

Modelling choices:
* A Python raw property value (`None`, `bool`, `int`, `float`, `str`) becomes the
  inductive `RawValue`; Python floats are modelled as exact rationals, and
  `round(x, 1)` as round-half-to-even at one decimal on rationals.
* The status dictionary `self.data` becomes `Bag := String → Option RawValue`;
  `none` means the key is missing entirely, `some .vNull` means the key is
  present and maps to Python `None`.
* `self.data[k]` (which can raise `KeyError`) becomes `getitem`, returning
  `Except AccErr RawValue`; `self.data.get(k)` becomes `dictGet`, total.
* Status accessors become functions `Bag → Except AccErr α`: `.error` models a
  raised exception during accessor evaluation, `.ok` a returned value.
* A command becomes a function returning the list of property writes it
  delegates to the external client via `set_property`; validated commands
  return `Except String (List (String × RawValue))`, where `.error msg` models
  `raise AirPurifierMiotException(msg)` (zero writes performed).
-/

/-- A raw property value as delivered by or sent to the device client. -/
inductive RawValue where
  | vNull : RawValue
  | vBool : Bool → RawValue
  | vInt : Int → RawValue
  | vFloat : ℚ → RawValue
  | vStr : String → RawValue
deriving DecidableEq, Repr

/-- Exceptions that can surface while evaluating a status accessor. -/
inductive AccErr where
  | keyError : String → AccErr
  | valueError : RawValue → AccErr
  | typeError : AccErr
deriving DecidableEq, Repr

/-- The raw property bag wrapped by a status view: logical name to raw value,
`none` meaning the key is absent from the dictionary. -/
abbrev Bag := String → Option RawValue

/-- `self.data[k]`: raises `KeyError` when the key is missing. -/
def getitem (b : Bag) (k : String) : Except AccErr RawValue :=
  match b k with
  | some v => .ok v
  | none => .error (.keyError k)

/-- `self.data.get(k)`: total, yields `None` when the key is missing. -/
def dictGet (b : Bag) (k : String) : RawValue :=
  (b k).getD .vNull

/-- Python truthiness of a raw value (used by `"on" if self.is_on else "off"`). -/
def truthy : RawValue → Bool
  | .vNull => false
  | .vBool b => b
  | .vInt n => n != 0
  | .vFloat q => q != 0
  | .vStr s => s != ""

/-- `_MODEL_AIRPURIFIER_ZA1`: logical property name → (siid, piid). -/
def MODEL_AIRPURIFIER_ZA1 : List (String × Nat × Nat) :=
  [("power", 2, 1),
   ("mode", 2, 5),
   ("tvoc", 3, 1),
   ("pm25", 3, 6),
   ("humidity", 3, 7),
   ("temperature", 3, 8),
   ("filter_life_remaining", 4, 3),
   ("filter_hours_used", 4, 5),
   ("buzzer", 5, 1),
   ("led_brightness", 6, 1),
   ("child_lock", 7, 1),
   ("favorite_level", 10, 10),
   ("motor_speed", 10, 11),
   ("use_time", 12, 1),
   ("purify_volume", 13, 1),
   ("average_aqi", 13, 2),
   ("filter_rfid_tag", 14, 1),
   ("filter_rfid_product_id", 14, 3),
   ("gesture_status", 15, 13)]

/-- The keys of the ZA1 property map. -/
def modelKeys : List String := MODEL_AIRPURIFIER_ZA1.map Prod.fst

/-- `class OperationMode(enum.Enum)`. -/
inductive OperationMode where
  | Auto : OperationMode
  | Silent : OperationMode
  | Favorite : OperationMode
  | Fan : OperationMode
deriving DecidableEq, Repr

/-- The fixed integer code of an operation mode (`mode.value` in Python). -/
def OperationMode.value : OperationMode → Int
  | .Auto => 0
  | .Silent => 1
  | .Favorite => 2
  | .Fan => 3

/-- `OperationMode(raw)`: enum lookup by value; Python `bool` compares equal to
`0`/`1`, so it also resolves; any other raw value raises `ValueError`. -/
def OperationMode.ofRaw? (v : RawValue) : Option OperationMode :=
  match v with
  | .vInt n =>
      if n = 0 then some .Auto
      else if n = 1 then some .Silent
      else if n = 2 then some .Favorite
      else if n = 3 then some .Fan
      else none
  | .vBool b => some (if b then .Silent else .Auto)
  | _ => none

/-- `class LedBrightness(enum.Enum)`. -/
inductive LedBrightness where
  | Bright : LedBrightness
  | Dim : LedBrightness
  | Off : LedBrightness
deriving DecidableEq, Repr

/-- The fixed integer code of a LED brightness (`brightness.value`). -/
def LedBrightness.value : LedBrightness → Int
  | .Bright => 0
  | .Dim => 1
  | .Off => 2

/-- `LedBrightness(raw)`: enum lookup by value, `ValueError` on anything else. -/
def LedBrightness.ofRaw? (v : RawValue) : Option LedBrightness :=
  match v with
  | .vInt n =>
      if n = 0 then some .Bright
      else if n = 1 then some .Dim
      else if n = 2 then some .Off
      else none
  | .vBool b => some (if b then .Dim else .Bright)
  | _ => none

/-- Round-half-to-even of a rational to the nearest integer, the tie rule of
Python `round`. -/
def roundHalfEven (q : ℚ) : ℤ :=
  if q - ⌊q⌋ < 1/2 then ⌊q⌋
  else if 1/2 < q - ⌊q⌋ then ⌊q⌋ + 1
  else if ⌊q⌋ % 2 = 0 then ⌊q⌋ else ⌊q⌋ + 1

/-- `round(q, 1)`: round to one decimal place. -/
def roundTo1 (q : ℚ) : ℚ :=
  ((roundHalfEven (q * 10) : ℤ) : ℚ) / 10

/-! ## Status accessors (`BasicAirPurifierMiotStatus`, `AirPurifierZA1Status`) -/

/-- `is_on`: `return self.data["power"]` (raw value passed through). -/
def BasicAirPurifierMiotStatus.is_on (b : Bag) : Except AccErr RawValue :=
  getitem b "power"

/-- `power`: `"on" if self.is_on else "off"` (Python truthiness). -/
def BasicAirPurifierMiotStatus.power (b : Bag) : Except AccErr String :=
  match BasicAirPurifierMiotStatus.is_on b with
  | .ok v => .ok (if truthy v then "on" else "off")
  | .error e => .error e

/-- `tvoc`: `return self.data["tvoc"]`. -/
def BasicAirPurifierMiotStatus.tvoc (b : Bag) : Except AccErr RawValue :=
  getitem b "tvoc"

/-- `mode`: `return OperationMode(self.data["mode"])`. -/
def BasicAirPurifierMiotStatus.mode (b : Bag) : Except AccErr OperationMode :=
  match getitem b "mode" with
  | .ok v =>
      match OperationMode.ofRaw? v with
      | some m => .ok m
      | none => .error (.valueError v)
  | .error e => .error e

/-- `buzzer`: return the raw value if it `is not None`, else `None`. -/
def BasicAirPurifierMiotStatus.buzzer (b : Bag) : Except AccErr RawValue :=
  match getitem b "buzzer" with
  | .ok v => if v ≠ .vNull then .ok v else .ok .vNull
  | .error e => .error e

/-- `child_lock`: `return self.data["child_lock"]`. -/
def BasicAirPurifierMiotStatus.child_lock (b : Bag) : Except AccErr RawValue :=
  getitem b "child_lock"

/-- `filter_life_remaining`: `return self.data["filter_life_remaining"]`. -/
def BasicAirPurifierMiotStatus.filter_life_remaining (b : Bag) :
    Except AccErr RawValue :=
  getitem b "filter_life_remaining"

/-- `filter_hours_used`: `return self.data["filter_hours_used"]`. -/
def BasicAirPurifierMiotStatus.filter_hours_used (b : Bag) :
    Except AccErr RawValue :=
  getitem b "filter_hours_used"

/-- `motor_speed`: `return self.data["motor_speed"]`. -/
def BasicAirPurifierMiotStatus.motor_speed (b : Bag) : Except AccErr RawValue :=
  getitem b "motor_speed"

/-- `favorite_rpm`: `return self.data.get("favorite_rpm")` — never raises,
yields `None` both for a missing key and for a stored `None`. -/
def BasicAirPurifierMiotStatus.favorite_rpm (b : Bag) : Except AccErr RawValue :=
  .ok (dictGet b "favorite_rpm")

/-- `average_aqi`: `return self.data["average_aqi"]`. -/
def AirPurifierZA1Status.average_aqi (b : Bag) : Except AccErr RawValue :=
  getitem b "average_aqi"

/-- `humidity`: `return self.data["humidity"]`. -/
def AirPurifierZA1Status.humidity (b : Bag) : Except AccErr RawValue :=
  getitem b "humidity"

/-- `temperature`: if `self.data["temperature"] is not None`, return
`round(value, 1)`, else `None`. `round` keeps ints/bools as integers and
raises `TypeError` on a string. -/
def AirPurifierZA1Status.temperature (b : Bag) : Except AccErr (Option ℚ) :=
  match getitem b "temperature" with
  | .ok v =>
      match v with
      | .vNull => .ok none
      | .vFloat q => .ok (some (roundTo1 q))
      | .vInt n => .ok (some (n : ℚ))
      | .vBool bb => .ok (some (if bb then 1 else 0))
      | .vStr _ => .error .typeError
  | .error e => .error e

/-- `led_brightness`: if the raw value `is not None`, try `LedBrightness(raw)`
and return `None` when that raises `ValueError`; else `None`. -/
def AirPurifierZA1Status.led_brightness (b : Bag) :
    Except AccErr (Option LedBrightness) :=
  match getitem b "led_brightness" with
  | .ok v =>
      if v ≠ .vNull then
        match LedBrightness.ofRaw? v with
        | some l => .ok (some l)
        | none => .ok none
      else .ok none
  | .error e => .error e

/-- `favorite_level`: `return self.data["favorite_level"]`. -/
def AirPurifierZA1Status.favorite_level (b : Bag) : Except AccErr RawValue :=
  getitem b "favorite_level"

/-- `use_time`: `return self.data["use_time"]`. -/
def AirPurifierZA1Status.use_time (b : Bag) : Except AccErr RawValue :=
  getitem b "use_time"

/-- `purify_volume`: `return self.data["purify_volume"]`. -/
def AirPurifierZA1Status.purify_volume (b : Bag) : Except AccErr RawValue :=
  getitem b "purify_volume"

/-- `filter_rfid_product_id`: `return self.data["filter_rfid_product_id"]`. -/
def AirPurifierZA1Status.filter_rfid_product_id (b : Bag) :
    Except AccErr RawValue :=
  getitem b "filter_rfid_product_id"

/-- `filter_rfid_tag`: `return self.data["filter_rfid_tag"]`. -/
def AirPurifierZA1Status.filter_rfid_tag (b : Bag) : Except AccErr RawValue :=
  getitem b "filter_rfid_tag"

/-- `pm25`: `return self.data["pm25"]`. -/
def AirPurifierZA1Status.pm25 (b : Bag) : Except AccErr RawValue :=
  getitem b "pm25"

/-- `gesture_status`: `return self.data["gesture_status"]`. -/
def AirPurifierZA1Status.gesture_status (b : Bag) : Except AccErr RawValue :=
  getitem b "gesture_status"

/-! ## Commands (`BasicAirPurifierMiot`, `AirPurifierZA1`) -/

/-- `self.set_property(name, value)`: one delegated property write. -/
def set_property (name : String) (v : RawValue) : List (String × RawValue) :=
  [(name, v)]

/-- `on`: `return self.set_property("power", True)`. -/
def BasicAirPurifierMiot.on : List (String × RawValue) :=
  set_property "power" (.vBool true)

/-- `off`: `return self.set_property("power", False)`. -/
def BasicAirPurifierMiot.off : List (String × RawValue) :=
  set_property "power" (.vBool false)

/-- `set_favorite_rpm(rpm)`: validate `300 ≤ rpm ≤ 2300` and `rpm % 10 == 0`,
then delegate one write; otherwise raise with no write. -/
def BasicAirPurifierMiot.set_favorite_rpm (rpm : Int) :
    Except String (List (String × RawValue)) :=
  if rpm < 300 ∨ rpm > 2300 ∨ rpm % 10 ≠ 0 then
    .error ("Invalid favorite motor speed: " ++ toString rpm
      ++ ". Must be between 300 and 2300 and divisible by 10")
  else
    .ok (set_property "favorite_rpm" (.vInt rpm))

/-- `set_mode(mode)`: `return self.set_property("mode", mode.value)`. -/
def BasicAirPurifierMiot.set_mode (m : OperationMode) :
    List (String × RawValue) :=
  set_property "mode" (.vInt m.value)

/-- `set_buzzer(buzzer)`: `return self.set_property("buzzer", buzzer)`. -/
def BasicAirPurifierMiot.set_buzzer (bz : Bool) : List (String × RawValue) :=
  set_property "buzzer" (.vBool bz)

/-- `set_child_lock(lock)`: `return self.set_property("child_lock", lock)`. -/
def BasicAirPurifierMiot.set_child_lock (lock : Bool) :
    List (String × RawValue) :=
  set_property "child_lock" (.vBool lock)

/-- `set_gesture(gesture)`: `return self.set_property("gesture", gesture)`. -/
def AirPurifierZA1.set_gesture (g : Bool) : List (String × RawValue) :=
  set_property "gesture" (.vBool g)

/-- `set_favorite_level(level)`: validate `0 ≤ level ≤ 14`, then delegate one
write; otherwise raise with no write. -/
def AirPurifierZA1.set_favorite_level (level : Int) :
    Except String (List (String × RawValue)) :=
  if level < 0 ∨ level > 14 then
    .error ("Invalid favorite level: " ++ toString level)
  else
    .ok (set_property "favorite_level" (.vInt level))

/-- `set_led_brightness(brightness)`: delegate a write of the enum's code. -/
def AirPurifierZA1.set_led_brightness (br : LedBrightness) :
    List (String × RawValue) :=
  set_property "led_brightness" (.vInt br.value)

/-! ## `status()`: building the raw property bag from the bulk read -/

/-- One entry of the bulk-read response `get_properties_for_mapping()`. -/
structure MiotProp where
  did : String
  siid : Nat
  piid : Nat
  code : Int
  value : RawValue
deriving DecidableEq, Repr

/-- Python dict assignment `b[k] = v` on the bag model. -/
def bagInsert (b : Bag) (k : String) (v : RawValue) : Bag :=
  fun k' => if k' = k then some v else b k'

/-- One step of the dict comprehension in `status()`:
`prop["did"]: prop["value"] if prop["code"] == 0 else None`. -/
def statusStep (b : Bag) (p : MiotProp) : Bag :=
  bagInsert b p.did (if p.code = 0 then p.value else .vNull)

/-- `status()`: the raw property bag built from the bulk-read result. -/
def AirPurifierZA1.status (props : List MiotProp) : Bag :=
  props.foldl statusStep (fun _ => none)

/-! ## Helper lemmas and concrete bags -/

/-- The empty raw property bag: every key is missing. -/
def emptyBag : Bag := fun _ => none

theorem getitem_none {b : Bag} {k : String} (h : b k = none) :
    getitem b k = .error (.keyError k) := by
  simp [getitem, h]

theorem getitem_some {b : Bag} {k : String} {v : RawValue} (h : b k = some v) :
    getitem b k = .ok v := by
  simp [getitem, h]

/-- Executable check that `needle` is a prefix of `hay`. -/
def prefCheck : List Char → List Char → Bool
  | [], _ => true
  | _ :: _, [] => false
  | a :: s, b :: t => a == b && prefCheck s t

/-- Executable check that `needle` occurs contiguously inside `hay`; used to
formalise "the message carries X". -/
def substrCheck (needle : List Char) : List Char → Bool
  | [] => prefCheck needle []
  | c :: t => prefCheck needle (c :: t) || substrCheck needle t

theorem prefCheck_self (l : List Char) : prefCheck l l = true := by
  induction l with
  | nil => rfl
  | cons a t ih => simp [prefCheck, ih]

theorem substrCheck_suffix (p s : List Char) : substrCheck s (p ++ s) = true := by
  induction p with
  | nil =>
      cases s with
      | nil => rfl
      | cons a t => simp [substrCheck, prefCheck_self]
  | cons a t ih => simp [substrCheck, ih]

deriving instance DecidableEq for Except

/-! ## Claims -/

/-- Claim C1: the claim states that every logical property name passed by a
command to `set_property` is a key of `_MODEL_AIRPURIFIER_ZA1`. The code
violates it: `set_gesture` writes `"gesture"`, which is not a key (the map only
defines `"gesture_status"`); `set_favorite_rpm` likewise writes
`"favorite_rpm"`, which is not a key either. All other command-written names
are keys. -/
theorem claim_C1_gesture_key :
    AirPurifierZA1.set_gesture true = [("gesture", RawValue.vBool true)] ∧
    "gesture" ∉ modelKeys ∧
    "gesture_status" ∈ modelKeys ∧
    "favorite_rpm" ∉ modelKeys ∧
    "power" ∈ modelKeys ∧
    "mode" ∈ modelKeys ∧
    "buzzer" ∈ modelKeys ∧
    "child_lock" ∈ modelKeys ∧
    "favorite_level" ∈ modelKeys ∧
    "led_brightness" ∈ modelKeys := by
  decide

/-- Claim C2: for every integer rpm with `300 ≤ rpm ≤ 2300` and
`rpm % 10 = 0`, `set_favorite_rpm rpm` delegates exactly one write of the
unmodified value to `"favorite_rpm"`; for every rpm violating the condition it
raises a validation error (naming the range and step) and performs zero
writes. -/
theorem claim_C2_set_favorite_rpm (rpm : Int) :
    (300 ≤ rpm ∧ rpm ≤ 2300 ∧ rpm % 10 = 0 →
      BasicAirPurifierMiot.set_favorite_rpm rpm =
        .ok [("favorite_rpm", RawValue.vInt rpm)]) ∧
    (¬(300 ≤ rpm ∧ rpm ≤ 2300 ∧ rpm % 10 = 0) →
      BasicAirPurifierMiot.set_favorite_rpm rpm =
        .error ("Invalid favorite motor speed: " ++ toString rpm
          ++ ". Must be between 300 and 2300 and divisible by 10")) := by
  constructor
  · intro h
    unfold BasicAirPurifierMiot.set_favorite_rpm
    rw [if_neg (by omega)]
    rfl
  · intro h
    unfold BasicAirPurifierMiot.set_favorite_rpm
    rw [if_pos (by omega)]

/-- Witness for C2 at rpm = 500 (valid) and 299, 2310, 305 (invalid). -/
theorem claim_C2_witness :
    BasicAirPurifierMiot.set_favorite_rpm 500 =
      .ok [("favorite_rpm", RawValue.vInt 500)] ∧
    BasicAirPurifierMiot.set_favorite_rpm 299 =
      .error "Invalid favorite motor speed: 299. Must be between 300 and 2300 and divisible by 10" ∧
    BasicAirPurifierMiot.set_favorite_rpm 2310 =
      .error "Invalid favorite motor speed: 2310. Must be between 300 and 2300 and divisible by 10" ∧
    BasicAirPurifierMiot.set_favorite_rpm 305 =
      .error "Invalid favorite motor speed: 305. Must be between 300 and 2300 and divisible by 10" := by
  exact ⟨(claim_C2_set_favorite_rpm 500).1 (by decide),
    (claim_C2_set_favorite_rpm 299).2 (by decide),
    (claim_C2_set_favorite_rpm 2310).2 (by decide),
    (claim_C2_set_favorite_rpm 305).2 (by decide)⟩

/-- Claim C4: for every integer level with `0 ≤ level ≤ 14`,
`set_favorite_level level` delegates exactly one write of the value to
`"favorite_level"`; for every level outside the range it raises a validation
error and performs zero writes. -/
theorem claim_C4_set_favorite_level (level : Int) :
    (0 ≤ level ∧ level ≤ 14 →
      AirPurifierZA1.set_favorite_level level =
        .ok [("favorite_level", RawValue.vInt level)]) ∧
    (¬(0 ≤ level ∧ level ≤ 14) →
      AirPurifierZA1.set_favorite_level level =
        .error ("Invalid favorite level: " ++ toString level)) := by
  constructor
  · intro h
    unfold AirPurifierZA1.set_favorite_level
    rw [if_neg (by omega)]
    rfl
  · intro h
    unfold AirPurifierZA1.set_favorite_level
    rw [if_pos (by omega)]

/-- Witness for C4 at level = 0, 14 (valid) and -1, 15 (invalid). -/
theorem claim_C4_witness :
    AirPurifierZA1.set_favorite_level 0 =
      .ok [("favorite_level", RawValue.vInt 0)] ∧
    AirPurifierZA1.set_favorite_level 14 =
      .ok [("favorite_level", RawValue.vInt 14)] ∧
    AirPurifierZA1.set_favorite_level (-1) =
      .error "Invalid favorite level: -1" ∧
    AirPurifierZA1.set_favorite_level 15 =
      .error "Invalid favorite level: 15" := by
  exact ⟨(claim_C4_set_favorite_level 0).1 (by decide),
    (claim_C4_set_favorite_level 14).1 (by decide),
    (claim_C4_set_favorite_level (-1)).2 (by decide),
    (claim_C4_set_favorite_level 15).2 (by decide)⟩

/-- Claim C5 counterexample: at level 15 the raised message is
`"Invalid favorite level: 15"`; it carries the offending value but does not
mention the allowed range (neither `"14"` nor `"0"` occurs in it), refuting
"carries both the offending value and the allowed constraint (the range
0..14)". -/
theorem claim_C5_counterexample :
    AirPurifierZA1.set_favorite_level 15 =
      .error "Invalid favorite level: 15" ∧
    substrCheck "15".toList "Invalid favorite level: 15".toList = true ∧
    substrCheck "14".toList "Invalid favorite level: 15".toList = false ∧
    substrCheck "0".toList "Invalid favorite level: 15".toList = false := by
  refine ⟨by decide, by decide, by decide, by decide⟩

/-- Claim C5 (amended): the validation error raised by `set_favorite_level`
for an out-of-range level carries the offending value in its message, but not
the allowed range. -/
theorem claim_C5_amended (level : Int) (h : level < 0 ∨ 14 < level) :
    AirPurifierZA1.set_favorite_level level =
      .error ("Invalid favorite level: " ++ toString level) ∧
    substrCheck (toString level).toList
      ("Invalid favorite level: " ++ toString level).toList = true := by
  constructor
  · unfold AirPurifierZA1.set_favorite_level
    rw [if_pos (by omega)]
  · have hd : ("Invalid favorite level: " ++ toString level).toList =
        "Invalid favorite level: ".toList ++ (toString level).toList := by
      simp [String.toList, String.data_append]
    rw [hd]
    exact substrCheck_suffix _ _

/-- Witness for C5 (amended) at level = 15. -/
theorem claim_C5_witness :
    AirPurifierZA1.set_favorite_level 15 =
      .error ("Invalid favorite level: " ++ toString (15 : Int)) ∧
    substrCheck (toString (15 : Int)).toList
      ("Invalid favorite level: " ++ toString (15 : Int)).toList = true := by
  exact claim_C5_amended 15 (Or.inr (by decide))

/-- Claim C3: `set_mode m` delegates a write of m's fixed integer code
(Favorite encodes to 2); the `mode` accessor decodes that code back to m
(round trip), and raises a decode error (`ValueError`) for any raw integer
outside {0,1,2,3}. -/
theorem claim_C3_mode_roundtrip :
    (∀ m : OperationMode,
      BasicAirPurifierMiot.set_mode m = [("mode", RawValue.vInt m.value)]) ∧
    OperationMode.Favorite.value = 2 ∧
    (∀ (b : Bag) (m : OperationMode),
      b "mode" = some (RawValue.vInt m.value) →
      BasicAirPurifierMiotStatus.mode b = .ok m) ∧
    (∀ (b : Bag) (n : Int), b "mode" = some (RawValue.vInt n) →
      n ≠ 0 → n ≠ 1 → n ≠ 2 → n ≠ 3 →
      BasicAirPurifierMiotStatus.mode b =
        .error (.valueError (RawValue.vInt n))) := by
  refine ⟨fun m => rfl, rfl, ?_, ?_⟩
  · intro b m h
    cases m <;>
      simp [BasicAirPurifierMiotStatus.mode, getitem_some h,
        OperationMode.ofRaw?, OperationMode.value]
  · intro b n h h0 h1 h2 h3
    simp [BasicAirPurifierMiotStatus.mode, getitem_some h,
      OperationMode.ofRaw?, h0, h1, h2, h3]

/-- Witness for C3: Favorite encodes to 2; the accessor decodes 2 back to
Favorite and rejects 9 with a decode error. -/
theorem claim_C3_witness :
    BasicAirPurifierMiot.set_mode OperationMode.Favorite =
      [("mode", RawValue.vInt 2)] ∧
    BasicAirPurifierMiotStatus.mode
      (bagInsert emptyBag "mode" (RawValue.vInt 2)) =
      .ok OperationMode.Favorite ∧
    BasicAirPurifierMiotStatus.mode
      (bagInsert emptyBag "mode" (RawValue.vInt 9)) =
      .error (.valueError (RawValue.vInt 9)) := by
  exact ⟨claim_C3_mode_roundtrip.1 OperationMode.Favorite,
    claim_C3_mode_roundtrip.2.2.1 _ OperationMode.Favorite rfl,
    claim_C3_mode_roundtrip.2.2.2 _ 9 rfl (by decide) (by decide) (by decide)
      (by decide)⟩

/-- Claim C6: the `led_brightness` accessor maps a raw value in {0,1,2} to the
corresponding LED Brightness member (1 yields Dim), maps any other present
integer to an absent result without raising, and maps a present null raw value
to absent. -/
theorem claim_C6_led_brightness :
    (∀ (b : Bag) (l : LedBrightness),
      b "led_brightness" = some (RawValue.vInt l.value) →
      AirPurifierZA1Status.led_brightness b = .ok (some l)) ∧
    (∀ (b : Bag) (n : Int), b "led_brightness" = some (RawValue.vInt n) →
      n ≠ 0 → n ≠ 1 → n ≠ 2 →
      AirPurifierZA1Status.led_brightness b = .ok none) ∧
    (∀ b : Bag, b "led_brightness" = some RawValue.vNull →
      AirPurifierZA1Status.led_brightness b = .ok none) := by
  refine ⟨?_, ?_, ?_⟩
  · intro b l h
    cases l <;>
      simp [AirPurifierZA1Status.led_brightness, getitem_some h,
        LedBrightness.ofRaw?, LedBrightness.value]
  · intro b n h h0 h1 h2
    simp [AirPurifierZA1Status.led_brightness, getitem_some h,
      LedBrightness.ofRaw?, h0, h1, h2]
  · intro b h
    simp [AirPurifierZA1Status.led_brightness, getitem_some h]

/-- Witness for C6: 1 yields Dim, 5 yields absent, null yields absent. -/
theorem claim_C6_witness :
    AirPurifierZA1Status.led_brightness
      (bagInsert emptyBag "led_brightness" (RawValue.vInt 1)) =
      .ok (some LedBrightness.Dim) ∧
    AirPurifierZA1Status.led_brightness
      (bagInsert emptyBag "led_brightness" (RawValue.vInt 5)) = .ok none ∧
    AirPurifierZA1Status.led_brightness
      (bagInsert emptyBag "led_brightness" RawValue.vNull) = .ok none := by
  exact ⟨claim_C6_led_brightness.1 _ LedBrightness.Dim rfl,
    claim_C6_led_brightness.2.1 _ 5 rfl (by decide) (by decide) (by decide),
    claim_C6_led_brightness.2.2 _ rfl⟩

theorem roundHalfEven_close (x : ℚ) : |x - (roundHalfEven x : ℚ)| ≤ 1/2 := by
  have h1 : (⌊x⌋ : ℚ) ≤ x := Int.floor_le x
  have h2 : x < ⌊x⌋ + 1 := Int.lt_floor_add_one x
  unfold roundHalfEven
  split_ifs with hc1 hc2 hc3 <;> rw [abs_le] <;> constructor <;> push_cast <;>
    linarith

theorem roundTo1_close (q : ℚ) : |q - roundTo1 q| ≤ 1/20 := by
  have h := roundHalfEven_close (q * 10)
  unfold roundTo1
  have hq : q - (roundHalfEven (q * 10) : ℚ) / 10 =
      (q * 10 - (roundHalfEven (q * 10) : ℚ)) / 10 := by ring
  rw [hq, abs_div, abs_of_pos (by norm_num : (0:ℚ) < 10)]
  linarith

theorem roundTo1_concrete : roundTo1 (21449999/1000000) = 214/10 := by
  have hf : ⌊(21449999/1000000 : ℚ) * 10⌋ = 214 := by
    rw [Int.floor_eq_iff]
    constructor <;> norm_num
  unfold roundTo1 roundHalfEven
  rw [hf]
  norm_num

/-- Claim C7: the `temperature` accessor returns the raw floating value
rounded to one decimal place when present (the result is an integer multiple
of 1/10 within 1/20 of the raw value; 21.449999 yields 21.4), and absent when
the raw value is null. -/
theorem claim_C7_temperature :
    (∀ (b : Bag) (q : ℚ), b "temperature" = some (RawValue.vFloat q) →
      AirPurifierZA1Status.temperature b = .ok (some (roundTo1 q))) ∧
    (∀ q : ℚ, ∃ z : ℤ, roundTo1 q = (z : ℚ) / 10 ∧ |q - roundTo1 q| ≤ 1/20) ∧
    roundTo1 (21449999/1000000) = 214/10 ∧
    (∀ b : Bag, b "temperature" = some RawValue.vNull →
      AirPurifierZA1Status.temperature b = .ok none) := by
  refine ⟨?_, ?_, roundTo1_concrete, ?_⟩
  · intro b q h
    simp [AirPurifierZA1Status.temperature, getitem_some h]
  · intro q
    exact ⟨roundHalfEven (q * 10), rfl, roundTo1_close q⟩
  · intro b h
    simp [AirPurifierZA1Status.temperature, getitem_some h]

/-- Witness for C7: a bag with temperature 21.449999 yields 21.4; a bag with
a null temperature yields absent. -/
theorem claim_C7_witness :
    AirPurifierZA1Status.temperature
      (bagInsert emptyBag "temperature" (RawValue.vFloat (21449999/1000000))) =
      .ok (some (214/10)) ∧
    AirPurifierZA1Status.temperature
      (bagInsert emptyBag "temperature" RawValue.vNull) = .ok none := by
  constructor
  · rw [claim_C7_temperature.1 _ (21449999/1000000) rfl,
      claim_C7_temperature.2.2.1]
  · exact claim_C7_temperature.2.2.2 _ rfl

/-- Claim C9: for every raw property bag that lacks a `"favorite_rpm"` key
entirely, the `favorite_rpm` accessor returns absent (null) rather than
raising a lookup failure. -/
theorem claim_C9_favorite_rpm_missing (b : Bag)
    (h : b "favorite_rpm" = none) :
    BasicAirPurifierMiotStatus.favorite_rpm b = .ok RawValue.vNull := by
  simp [BasicAirPurifierMiotStatus.favorite_rpm, dictGet, h]

/-- Witness for C9: the empty bag. -/
theorem claim_C9_witness :
    BasicAirPurifierMiotStatus.favorite_rpm emptyBag = .ok RawValue.vNull :=
  claim_C9_favorite_rpm_missing emptyBag rfl

theorem status_foldl_not_mem (props : List MiotProp) (b : Bag) (k : String)
    (hk : k ∉ props.map MiotProp.did) :
    props.foldl statusStep b k = b k := by
  induction props generalizing b with
  | nil => rfl
  | cons p ps ih =>
      rw [List.map_cons, List.mem_cons] at hk
      push_neg at hk
      rw [List.foldl_cons, ih _ hk.2]
      simp [statusStep, bagInsert, hk.1]

theorem status_foldl_mem (props : List MiotProp) (b : Bag) (e : MiotProp)
    (he : e ∈ props) (hnd : (props.map MiotProp.did).Nodup) :
    props.foldl statusStep b e.did =
      some (if e.code = 0 then e.value else .vNull) := by
  induction props generalizing b with
  | nil => cases he
  | cons p ps ih =>
      rw [List.map_cons, List.nodup_cons] at hnd
      rcases List.mem_cons.mp he with rfl | hmem
      · rw [List.foldl_cons, status_foldl_not_mem ps _ _ hnd.1]
        simp [statusStep, bagInsert]
      · exact ih _ hmem hnd.2

/-- Claim C8: when `status()` builds the raw property bag from the bulk-read
result (with pairwise-distinct logical names), every entry with result code 0
is stored under its logical name with its reported value, and every entry with
a non-zero code is stored as null under its logical name. -/
theorem claim_C8_status_bag (props : List MiotProp)
    (hnd : (props.map MiotProp.did).Nodup) (e : MiotProp) (he : e ∈ props) :
    (e.code = 0 → AirPurifierZA1.status props e.did = some e.value) ∧
    (e.code ≠ 0 → AirPurifierZA1.status props e.did = some RawValue.vNull) := by
  have h := status_foldl_mem props (fun _ => none) e he hnd
  constructor
  · intro hc
    rw [AirPurifierZA1.status, h, if_pos hc]
  · intro hc
    rw [AirPurifierZA1.status, h, if_neg hc]

/-- Witness for C8: a two-entry bulk read, one success-coded and one
error-coded. -/
theorem claim_C8_witness :
    AirPurifierZA1.status
      [⟨"power", 2, 1, 0, RawValue.vBool true⟩,
       ⟨"temperature", 3, 8, -4004, RawValue.vNull⟩] "power" =
      some (RawValue.vBool true) ∧
    AirPurifierZA1.status
      [⟨"power", 2, 1, 0, RawValue.vBool true⟩,
       ⟨"temperature", 3, 8, -4004, RawValue.vNull⟩] "temperature" =
      some RawValue.vNull := by
  constructor
  · exact (claim_C8_status_bag
      [⟨"power", 2, 1, 0, RawValue.vBool true⟩,
       ⟨"temperature", 3, 8, -4004, RawValue.vNull⟩]
      (by decide) ⟨"power", 2, 1, 0, RawValue.vBool true⟩
      (by simp)).1 rfl
  · exact (claim_C8_status_bag
      [⟨"power", 2, 1, 0, RawValue.vBool true⟩,
       ⟨"temperature", 3, 8, -4004, RawValue.vNull⟩]
      (by decide) ⟨"temperature", 3, 8, -4004, RawValue.vNull⟩
      (by simp)).2 (by decide)

/-- Claim C10 counterexample: the clause "absent is returned only when the key
is present and maps to null" fails for `led_brightness`: on a bag where
`"led_brightness"` is present and maps to the non-null integer 5, the accessor
returns absent. -/
theorem claim_C10_counterexample :
    (bagInsert emptyBag "led_brightness" (RawValue.vInt 5)) "led_brightness" =
      some (RawValue.vInt 5) ∧
    RawValue.vInt 5 ≠ RawValue.vNull ∧
    AirPurifierZA1Status.led_brightness
      (bagInsert emptyBag "led_brightness" (RawValue.vInt 5)) = .ok none := by
  refine ⟨rfl, by decide, by decide⟩

/-- Claim C10 (amended): `favorite_rpm` is the only status accessor tolerant
of a missing key — every other accessor raises a key-lookup error on a bag
lacking its key, while `favorite_rpm` returns absent; an accessor returns
absent only when its key is present, and `child_lock`/`gesture_status` pass
the stored value through unchanged (absent exactly for a stored null), while
`led_brightness` also returns absent for a present integer outside {0,1,2}. -/
theorem claim_C10_missing_key (b : Bag) :
    (∀ v, b "child_lock" = some v →
      BasicAirPurifierMiotStatus.child_lock b = .ok v) ∧
    (∀ v, b "gesture_status" = some v →
      AirPurifierZA1Status.gesture_status b = .ok v) ∧
    (∀ n : Int, b "led_brightness" = some (RawValue.vInt n) →
      n ≠ 0 → n ≠ 1 → n ≠ 2 →
      AirPurifierZA1Status.led_brightness b = .ok none) ∧
    (b "favorite_rpm" = none →
      BasicAirPurifierMiotStatus.favorite_rpm b = .ok RawValue.vNull) ∧
    (b "power" = none →
      BasicAirPurifierMiotStatus.is_on b = .error (.keyError "power")) ∧
    (b "power" = none →
      BasicAirPurifierMiotStatus.power b = .error (.keyError "power")) ∧
    (b "tvoc" = none →
      BasicAirPurifierMiotStatus.tvoc b = .error (.keyError "tvoc")) ∧
    (b "mode" = none →
      BasicAirPurifierMiotStatus.mode b = .error (.keyError "mode")) ∧
    (b "buzzer" = none →
      BasicAirPurifierMiotStatus.buzzer b = .error (.keyError "buzzer")) ∧
    (b "child_lock" = none →
      BasicAirPurifierMiotStatus.child_lock b =
        .error (.keyError "child_lock")) ∧
    (b "filter_life_remaining" = none →
      BasicAirPurifierMiotStatus.filter_life_remaining b =
        .error (.keyError "filter_life_remaining")) ∧
    (b "filter_hours_used" = none →
      BasicAirPurifierMiotStatus.filter_hours_used b =
        .error (.keyError "filter_hours_used")) ∧
    (b "motor_speed" = none →
      BasicAirPurifierMiotStatus.motor_speed b =
        .error (.keyError "motor_speed")) ∧
    (b "average_aqi" = none →
      AirPurifierZA1Status.average_aqi b = .error (.keyError "average_aqi")) ∧
    (b "humidity" = none →
      AirPurifierZA1Status.humidity b = .error (.keyError "humidity")) ∧
    (b "temperature" = none →
      AirPurifierZA1Status.temperature b = .error (.keyError "temperature")) ∧
    (b "led_brightness" = none →
      AirPurifierZA1Status.led_brightness b =
        .error (.keyError "led_brightness")) ∧
    (b "favorite_level" = none →
      AirPurifierZA1Status.favorite_level b =
        .error (.keyError "favorite_level")) ∧
    (b "use_time" = none →
      AirPurifierZA1Status.use_time b = .error (.keyError "use_time")) ∧
    (b "purify_volume" = none →
      AirPurifierZA1Status.purify_volume b =
        .error (.keyError "purify_volume")) ∧
    (b "filter_rfid_product_id" = none →
      AirPurifierZA1Status.filter_rfid_product_id b =
        .error (.keyError "filter_rfid_product_id")) ∧
    (b "filter_rfid_tag" = none →
      AirPurifierZA1Status.filter_rfid_tag b =
        .error (.keyError "filter_rfid_tag")) ∧
    (b "pm25" = none →
      AirPurifierZA1Status.pm25 b = .error (.keyError "pm25")) ∧
    (b "gesture_status" = none →
      AirPurifierZA1Status.gesture_status b =
        .error (.keyError "gesture_status")) := by
  refine ⟨?_, ?_, ?_, ?_, ?_, ?_, ?_, ?_, ?_, ?_, ?_, ?_, ?_, ?_, ?_, ?_, ?_,
    ?_, ?_, ?_, ?_, ?_, ?_, ?_⟩
  · intro v h
    simp [BasicAirPurifierMiotStatus.child_lock, getitem_some h]
  · intro v h
    simp [AirPurifierZA1Status.gesture_status, getitem_some h]
  · intro n h h0 h1 h2
    simp [AirPurifierZA1Status.led_brightness, getitem_some h,
      LedBrightness.ofRaw?, h0, h1, h2]
  · intro h
    simp [BasicAirPurifierMiotStatus.favorite_rpm, dictGet, h]
  · intro h
    simp [BasicAirPurifierMiotStatus.is_on, getitem_none h]
  · intro h
    simp [BasicAirPurifierMiotStatus.power, BasicAirPurifierMiotStatus.is_on,
      getitem_none h]
  · intro h
    simp [BasicAirPurifierMiotStatus.tvoc, getitem_none h]
  · intro h
    simp [BasicAirPurifierMiotStatus.mode, getitem_none h]
  · intro h
    simp [BasicAirPurifierMiotStatus.buzzer, getitem_none h]
  · intro h
    simp [BasicAirPurifierMiotStatus.child_lock, getitem_none h]
  · intro h
    simp [BasicAirPurifierMiotStatus.filter_life_remaining, getitem_none h]
  · intro h
    simp [BasicAirPurifierMiotStatus.filter_hours_used, getitem_none h]
  · intro h
    simp [BasicAirPurifierMiotStatus.motor_speed, getitem_none h]
  · intro h
    simp [AirPurifierZA1Status.average_aqi, getitem_none h]
  · intro h
    simp [AirPurifierZA1Status.humidity, getitem_none h]
  · intro h
    simp [AirPurifierZA1Status.temperature, getitem_none h]
  · intro h
    simp [AirPurifierZA1Status.led_brightness, getitem_none h]
  · intro h
    simp [AirPurifierZA1Status.favorite_level, getitem_none h]
  · intro h
    simp [AirPurifierZA1Status.use_time, getitem_none h]
  · intro h
    simp [AirPurifierZA1Status.purify_volume, getitem_none h]
  · intro h
    simp [AirPurifierZA1Status.filter_rfid_product_id, getitem_none h]
  · intro h
    simp [AirPurifierZA1Status.filter_rfid_tag, getitem_none h]
  · intro h
    simp [AirPurifierZA1Status.pm25, getitem_none h]
  · intro h
    simp [AirPurifierZA1Status.gesture_status, getitem_none h]

/-- Witness for C10 (amended): every accessor evaluated on the empty bag, and
the passthrough/absent cases on concrete one-key bags. -/
theorem claim_C10_witness :
    BasicAirPurifierMiotStatus.child_lock
      (bagInsert emptyBag "child_lock" (RawValue.vBool true)) =
      .ok (RawValue.vBool true) ∧
    AirPurifierZA1Status.gesture_status
      (bagInsert emptyBag "gesture_status" RawValue.vNull) =
      .ok RawValue.vNull ∧
    AirPurifierZA1Status.led_brightness
      (bagInsert emptyBag "led_brightness" (RawValue.vInt 7)) = .ok none ∧
    BasicAirPurifierMiotStatus.favorite_rpm emptyBag = .ok RawValue.vNull ∧
    BasicAirPurifierMiotStatus.is_on emptyBag = .error (.keyError "power") ∧
    BasicAirPurifierMiotStatus.power emptyBag = .error (.keyError "power") ∧
    BasicAirPurifierMiotStatus.tvoc emptyBag = .error (.keyError "tvoc") ∧
    BasicAirPurifierMiotStatus.mode emptyBag = .error (.keyError "mode") ∧
    BasicAirPurifierMiotStatus.buzzer emptyBag = .error (.keyError "buzzer") ∧
    BasicAirPurifierMiotStatus.child_lock emptyBag =
      .error (.keyError "child_lock") ∧
    BasicAirPurifierMiotStatus.filter_life_remaining emptyBag =
      .error (.keyError "filter_life_remaining") ∧
    BasicAirPurifierMiotStatus.filter_hours_used emptyBag =
      .error (.keyError "filter_hours_used") ∧
    BasicAirPurifierMiotStatus.motor_speed emptyBag =
      .error (.keyError "motor_speed") ∧
    AirPurifierZA1Status.average_aqi emptyBag =
      .error (.keyError "average_aqi") ∧
    AirPurifierZA1Status.humidity emptyBag = .error (.keyError "humidity") ∧
    AirPurifierZA1Status.temperature emptyBag =
      .error (.keyError "temperature") ∧
    AirPurifierZA1Status.led_brightness emptyBag =
      .error (.keyError "led_brightness") ∧
    AirPurifierZA1Status.favorite_level emptyBag =
      .error (.keyError "favorite_level") ∧
    AirPurifierZA1Status.use_time emptyBag = .error (.keyError "use_time") ∧
    AirPurifierZA1Status.purify_volume emptyBag =
      .error (.keyError "purify_volume") ∧
    AirPurifierZA1Status.filter_rfid_product_id emptyBag =
      .error (.keyError "filter_rfid_product_id") ∧
    AirPurifierZA1Status.filter_rfid_tag emptyBag =
      .error (.keyError "filter_rfid_tag") ∧
    AirPurifierZA1Status.pm25 emptyBag = .error (.keyError "pm25") ∧
    AirPurifierZA1Status.gesture_status emptyBag =
      .error (.keyError "gesture_status") := by
  obtain ⟨-, -, -, a4, a5, a6, a7, a8, a9, a10, a11, a12, a13, a14, a15, a16,
    a17, a18, a19, a20, a21, a22, a23, a24⟩ := claim_C10_missing_key emptyBag
  exact ⟨(claim_C10_missing_key
      (bagInsert emptyBag "child_lock" (RawValue.vBool true))).1 _ rfl,
    (claim_C10_missing_key
      (bagInsert emptyBag "gesture_status" RawValue.vNull)).2.1 _ rfl,
    (claim_C10_missing_key
      (bagInsert emptyBag "led_brightness" (RawValue.vInt 7))).2.2.1 7 rfl
      (by decide) (by decide) (by decide),
    a4 rfl, a5 rfl, a6 rfl, a7 rfl, a8 rfl, a9 rfl, a10 rfl, a11 rfl, a12 rfl,
    a13 rfl, a14 rfl, a15 rfl, a16 rfl, a17 rfl, a18 rfl, a19 rfl, a20 rfl,
    a21 rfl, a22 rfl, a23 rfl, a24 rfl⟩
